import Mathlib

/-!
# Verification of the peer-feedback assistant front-end (`src/main.py`)

Shallow embedding of the Streamlit application in `src/main.py`.

The program is a two-screen front-end: a selector screen that chooses an
assistant mode, a model name and a sampling temperature, and a chat screen
that keeps an in-memory list of chat turns and relays them through a routing
table to a shared OpenAI chat-completion helper (`_chat`).

Python globals (`openai.api_key`) and the external service call
(`openai.ChatCompletion.create` followed by `response.choices[0].message.content`)
are made explicit: every function that reads the API key takes it as a
parameter, and the external service is an oracle `Svc` returning either a
response (a list of choices) or the message of a raised exception. The
index access `choices[0]` on an empty list raises `IndexError` with message
"list index out of range", which the `except` clause of `_chat` also catches,
so it is folded into the same `Except` monad.
-/

/-- A chat turn / message: a Python dict `{"role": ..., "content": ...}`. -/
structure Message where
  role : String
  content : String
deriving DecidableEq, Repr

/-- One element of `response.choices`: carries a `message` field. -/
structure Choice where
  message : Message
deriving DecidableEq, Repr

/-- The response object returned by `openai.ChatCompletion.create`. -/
structure ChatResponse where
  choices : List Choice
deriving DecidableEq, Repr

/-- The external chat-completion service, as an oracle: from the message
list, model name and temperature it either returns a response or raises an
exception carrying a message string. -/
abbrev Svc : Type := List Message → String → Float → Except String ChatResponse

/-- Python truthiness of a string: `bool(s)` is `False` exactly for `""`. -/
def pyBool (s : String) : Bool := !(s == "")

/-- The fixed warning returned by `_chat` when no API key is set
(`src/main.py` line 65). -/
def noKeyWarning : String := "⚠️ Please provide an OpenAI API key in the sidebar."

/-- The beginning of the error string built by the `except` clause of
`_chat` (`src/main.py` line 74): `f"⚠️ Error querying OpenAI: {exc}"`. -/
def errorText (exc : String) : String := "⚠️ Error querying OpenAI: " ++ exc

/-- The body of the `try` block of `_chat` (`src/main.py` lines 66-72):
call the service, then take `response.choices[0].message.content`; both the
service call and the empty-list index access can raise. -/
def chatTry (svc : Svc) (messages : List Message) (model : String)
    (temperature : Float) : Except String String :=
  match svc messages model temperature with
  | .error exc => .error exc
  | .ok response =>
      match response.choices with
      | [] => .error "list index out of range"
      | c :: _ => .ok c.message.content

/-- Shared OpenAI call helper `_chat` (`src/main.py` lines 63-74).
`api_key` is the global `openai.api_key` made explicit; `svc` is the
external service oracle. Total by construction: every exception of the one
external call is caught and rendered, never re-raised. -/
def _chat (svc : Svc) (api_key : String) (messages : List Message)
    (model : String) (temperature : Float) : String :=
  if !(pyBool api_key) then noKeyWarning
  else
    match chatTry svc messages model temperature with
    | .ok content => content
    | .error exc => errorText exc

/-- The type of a route function from the routing table: the source
signature `(messages, model, temperature)` with the globals (`svc`,
`api_key`) made explicit in front. -/
abbrev RouteFn : Type := Svc → String → List Message → String → Float → String

/-- System-prompt text of the self-assessment mode (`src/main.py` line 42). -/
def selfAssessmentText : String :=
  "You are an AI self-assessment coach. Help users reflect concisely on their work."

/-- System-prompt text of the jigsaw mode (`src/main.py` line 47; the
hyphen in "learning‑facilitator" is the non-breaking hyphen U+2011,
exactly as in the source). -/
def jigsawText : String :=
  "You are an AI learning‑facilitator guiding a Jigsaw cooperative activity."

/-- System-prompt text of the feedback-on-feedback mode (`src/main.py` line 52). -/
def feedbackOnFeedbackText : String :=
  "You are an AI reviewer providing meta-feedback on peer feedback quality."

/-- System-prompt text of the clarification mode (`src/main.py` line 57). -/
def clarificationText : String :=
  "You help refine and clarify peer feedback by asking targeted follow-up questions."

/-- Route function of the "Write-up" mode (`src/main.py` lines 37-38):
forwards the messages to `_chat` unchanged. -/
def call_writeup_model (svc : Svc) (api_key : String) (messages : List Message)
    (model : String) (temperature : Float) : String :=
  _chat svc api_key messages model temperature

/-- Route function of the "Self-assessment" mode (`src/main.py` lines 41-43):
prepends its system prompt with `[{"role": "system", "content": prefix}] + messages`. -/
def call_self_assessment_model (svc : Svc) (api_key : String)
    (messages : List Message) (model : String) (temperature : Float) : String :=
  _chat svc api_key (⟨"system", selfAssessmentText⟩ :: messages) model temperature

/-- Route function of the "Jigsaw/cooperation" mode (`src/main.py` lines 46-48). -/
def call_jigsaw_model (svc : Svc) (api_key : String) (messages : List Message)
    (model : String) (temperature : Float) : String :=
  _chat svc api_key (⟨"system", jigsawText⟩ :: messages) model temperature

/-- Route function of the "AI Feedback on feedback" mode (`src/main.py` lines 51-53). -/
def call_feedback_on_feedback_model (svc : Svc) (api_key : String)
    (messages : List Message) (model : String) (temperature : Float) : String :=
  _chat svc api_key (⟨"system", feedbackOnFeedbackText⟩ :: messages) model temperature

/-- Route function of the "Further Clarification on peer feedback" mode
(`src/main.py` lines 56-58). -/
def call_clarification_model (svc : Svc) (api_key : String)
    (messages : List Message) (model : String) (temperature : Float) : String :=
  _chat svc api_key (⟨"system", clarificationText⟩ :: messages) model temperature

/-- The routing table `FUNCTION_ROUTES` (`src/main.py` lines 77-83), as an
association list preserving the dict's insertion order. -/
def FUNCTION_ROUTES : List (String × RouteFn) :=
  [("Write-up", call_writeup_model),
   ("Self-assessment", call_self_assessment_model),
   ("Jigsaw/cooperation", call_jigsaw_model),
   ("AI Feedback on feedback", call_feedback_on_feedback_model),
   ("Further Clarification on peer feedback", call_clarification_model)]

/-- The model list `AVAILABLE_MODELS` (`src/main.py` lines 26-31). -/
def AVAILABLE_MODELS : List String :=
  ["gpt-4.1", "gpt-4o", "gpt-4o-mini", "gpt-3.5-turbo-0125"]

/-!
## Session state and the two-screen state machine

`st.session_state` (`src/main.py` lines 88-97) holds the page, the
conversation log, the mode choice (`None` until Start is pressed, hence an
`Option`), the temperature, the model choice, and the pasted API key.
The global `openai.api_key` mirrors the pasted key, so a single field
stands for both.
-/

/-- The session state of the app (`src/main.py` lines 88-97, plus the
API-key field from lines 13-14). -/
structure SessionState where
  page : String
  messages : List Message
  function_choice : Option String
  temperature : Float
  model_choice : String
  openai_api_key : String

/-- The initial session state (`src/main.py` lines 88-97): page
`"selector"`, empty log, no mode chosen, temperature `0.7`, model
`AVAILABLE_MODELS[0]`, and no API key pasted yet. -/
def initState : SessionState :=
  ⟨"selector", [], none, 0.7, AVAILABLE_MODELS.headD "", ""⟩

/-- The guard `start_disabled = not bool(openai.api_key)` of the Start
button (`src/main.py` line 120). -/
def start_disabled (api_key : String) : Bool := !(pyBool api_key)

/-- The chat-page send handler (`src/main.py` lines 150-165): if the chat
input is non-empty (Python truthiness), append the user turn to the log,
look the current mode up in `FUNCTION_ROUTES` (a `KeyError`, i.e. a mode
that is `None` or not a key, is modelled as `none`), call the route
function on the whole stored log, and append its reply as an assistant
turn. -/
def chat_send (svc : Svc) (s : SessionState) (user_text : String) :
    Option SessionState :=
  if pyBool user_text then
    match s.function_choice.bind (fun fc => FUNCTION_ROUTES.lookup fc) with
    | none => none
    | some route_fn =>
        let msgs1 := s.messages ++ [⟨"user", user_text⟩]
        let reply := route_fn svc s.openai_api_key msgs1 s.model_choice s.temperature
        some { s with messages := msgs1 ++ [⟨"assistant", reply⟩] }
  else some s

/-- The user-interface events that mutate the session state: pasting an
API key in the sidebar (lines 16-21), the Start button (lines 121-126),
the Reset-conversation button (lines 140-141), submitting chat input
(lines 150-165) and the Back button (lines 168-170). -/
inductive UiEvent where
  | setKey (k : String)
  | start (fc : String) (mc : String) (t : Float)
  | reset
  | send (u : String)
  | back
deriving Repr

/-- One step of the client-side state machine: each event fires only on
the screen whose block renders its widget (`if st.session_state.page ==
...`), the Start button only when it is not disabled, and its mode/model
arguments only from the options its two selectboxes offer. `none` models
the script dying on an uncaught `KeyError` in the send handler. -/
def step (svc : Svc) (s : SessionState) (e : UiEvent) : Option SessionState :=
  match e with
  | .setKey k =>
      if pyBool k then some { s with openai_api_key := k } else some s
  | .start fc mc t =>
      if s.page = "selector" ∧ start_disabled s.openai_api_key = false ∧
          fc ∈ FUNCTION_ROUTES.map Prod.fst ∧ mc ∈ AVAILABLE_MODELS then
        some { s with function_choice := some fc, model_choice := mc,
                      temperature := t, page := "chat" }
      else some s
  | .reset =>
      if s.page = "chat" then some { s with messages := [] } else some s
  | .send u =>
      if s.page = "chat" then chat_send svc s u else some s
  | .back =>
      if s.page = "chat" then some { s with page := "selector" } else some s

/-!
## Observation helpers

To state what a route function passes to the external service, we use a
service oracle that echoes its input: its single choice renders the
message list it received, so the reply text reveals exactly which
messages reached the service.
-/

/-- Render a message list as a string, one `role:content;` group per turn. -/
def msgRender : List Message → String
  | [] => ""
  | m :: ms => m.role ++ ":" ++ m.content ++ ";" ++ msgRender ms

/-- An echo service: succeeds with one choice whose content renders the
message list the service received. -/
def revealSvc : Svc := fun ms _ _ => .ok ⟨[⟨⟨"assistant", msgRender ms⟩⟩]⟩

/-- A plain service that always succeeds with the single reply `"ok"`. -/
def okSvc : Svc := fun _ _ _ => .ok ⟨[⟨⟨"assistant", "ok"⟩⟩]⟩

/-- With a key set, `_chat` against the echo service returns the rendering
of exactly the messages it forwarded. -/
theorem chat_reveal (ms : List Message) (m : String) (t : Float) :
    _chat revealSvc "k" ms m t = msgRender ms := rfl

/-- Prepending a system message changes what the echo service sees: the
rendering of the empty list differs from that of any one-element
system-message list. Shared helper for the counterexamples below. -/
theorem echo_empty_ne_system (p : String) :
    msgRender [] ≠ msgRender [⟨"system", p⟩] := by
  intro h
  have hlen := congrArg String.length h
  simp only [msgRender, String.length_append] at hlen
  have h0 : ("" : String).length = 0 := rfl
  have h1 : ("system" : String).length = 6 := rfl
  have h2 : (":" : String).length = 1 := rfl
  have h3 : (";" : String).length = 1 := rfl
  rw [h0, h1, h2, h3] at hlen
  omega

/-!
## C2 — the shared helper is total and returns first-choice text or a
formatted error string
-/

/-- C2: for every message list, model and temperature (and any behaviour
of the external service), once an API key is set the shared helper `_chat`
returns either the text content of the service's first choice on success,
or the `errorText` string built from the caught exception's message on
failure. Totality (never raising) is by construction of the embedding:
`_chat` is a total function. A success response with an empty choice list
makes `choices[0]` raise `IndexError("list index out of range")`, which the
same `except` clause catches, so it lands in the error disjunct. -/
theorem chat_returns_first_choice_or_error (svc : Svc) (api_key : String)
    (messages : List Message) (model : String) (temperature : Float)
    (hkey : pyBool api_key = true) :
    (∃ c cs, svc messages model temperature = .ok ⟨c :: cs⟩ ∧
      _chat svc api_key messages model temperature = c.message.content) ∨
    (∃ exc, _chat svc api_key messages model temperature = errorText exc) := by
  cases h : svc messages model temperature with
  | error exc =>
      right
      exact ⟨exc, by simp [_chat, chatTry, hkey, h]⟩
  | ok response =>
      cases response with
      | mk choices =>
          cases choices with
          | nil =>
              right
              exact ⟨"list index out of range", by simp [_chat, chatTry, hkey, h]⟩
          | cons c cs =>
              left
              exact ⟨c, cs, rfl, by simp [_chat, chatTry, hkey, h]⟩

/-- Witness for C2 at a concrete input: key `"k"`, the always-succeeding
service `okSvc`, empty message list. -/
theorem chat_returns_first_choice_or_error_witness :
    pyBool "k" = true ∧
    ((∃ c cs, okSvc [] "gpt-4.1" 0.7 = .ok ⟨c :: cs⟩ ∧
      _chat okSvc "k" [] "gpt-4.1" 0.7 = c.message.content) ∨
    (∃ exc, _chat okSvc "k" [] "gpt-4.1" 0.7 = errorText exc)) :=
  ⟨by decide, chat_returns_first_choice_or_error okSvc "k" [] "gpt-4.1" 0.7 (by decide)⟩

/-!
## C8 — missing API key short-circuits `_chat`, and gates the Start button
-/

/-- C8: with no API key set (a falsy key string), `_chat` returns the fixed
sidebar warning for every service behaviour — the universal quantification
over `svc` expresses that the external service is never consulted — and the
Start button is disabled exactly when the key is the empty string. -/
theorem no_key_warning_and_start_disabled (api_key : String)
    (hkey : pyBool api_key = false) :
    (∀ (svc : Svc) (messages : List Message) (model : String) (temperature : Float),
      _chat svc api_key messages model temperature = noKeyWarning) ∧
    (∀ k : String, start_disabled k = true ↔ k = "") := by
  constructor
  · intro svc messages model temperature
    simp [_chat, hkey]
  · intro k
    simp [start_disabled, pyBool]

/-- Witness for C8: the empty key, the always-succeeding service. -/
theorem no_key_warning_and_start_disabled_witness :
    pyBool "" = false ∧
    _chat okSvc "" [] "gpt-4.1" 0.7 = noKeyWarning ∧
    (start_disabled "" = true ↔ "" = "") :=
  ⟨by decide,
   (no_key_warning_and_start_disabled "" (by decide)).1 okSvc [] "gpt-4.1" 0.7,
   (no_key_warning_and_start_disabled "" (by decide)).2 ""⟩

/-!
## C3 — Write-up forwards unchanged; the other four modes prepend
non-empty fixed system prompts
-/

/-- C3: the "Write-up" route forwards the message list to `_chat`
unchanged, while each of the other four routes calls `_chat` with its
fixed, non-empty system-prompt string prepended as a system-role message. -/
theorem writeup_forwards_others_prepend :
    (∀ (svc : Svc) (key : String) (M : List Message) (m : String) (t : Float),
      call_writeup_model svc key M m t = _chat svc key M m t) ∧
    (0 < selfAssessmentText.length ∧
      ∀ (svc : Svc) (key : String) (M : List Message) (m : String) (t : Float),
        call_self_assessment_model svc key M m t =
          _chat svc key (⟨"system", selfAssessmentText⟩ :: M) m t) ∧
    (0 < jigsawText.length ∧
      ∀ (svc : Svc) (key : String) (M : List Message) (m : String) (t : Float),
        call_jigsaw_model svc key M m t =
          _chat svc key (⟨"system", jigsawText⟩ :: M) m t) ∧
    (0 < feedbackOnFeedbackText.length ∧
      ∀ (svc : Svc) (key : String) (M : List Message) (m : String) (t : Float),
        call_feedback_on_feedback_model svc key M m t =
          _chat svc key (⟨"system", feedbackOnFeedbackText⟩ :: M) m t) ∧
    (0 < clarificationText.length ∧
      ∀ (svc : Svc) (key : String) (M : List Message) (m : String) (t : Float),
        call_clarification_model svc key M m t =
          _chat svc key (⟨"system", clarificationText⟩ :: M) m t) :=
  ⟨fun _ _ _ _ _ => rfl,
   ⟨by decide, fun _ _ _ _ _ => rfl⟩,
   ⟨by decide, fun _ _ _ _ _ => rfl⟩,
   ⟨by decide, fun _ _ _ _ _ => rfl⟩,
   ⟨by decide, fun _ _ _ _ _ => rfl⟩⟩

/-!
## C1 — does every mode prepend a fixed system prompt?
-/

/-- Formalisation of claim C1 exactly as stated: every mode label in the
routing table has a fixed system-prompt string that its route function
prepends as a system-role message ahead of the input list before calling
the shared helper. -/
def EveryModePrependsSystemPrompt : Prop :=
  ∀ fc fn, (fc, fn) ∈ FUNCTION_ROUTES → ∃ p : String,
    ∀ (svc : Svc) (key : String) (M : List Message) (m : String) (t : Float),
      fn svc key M m t = _chat svc key (⟨"system", p⟩ :: M) m t

/-- Counterexample to C1 as stated: the "Write-up" entry of the routing
table prepends nothing. Probed with the echo service and the empty message
list: the Write-up route answers with the rendering of the empty list,
while any route that prepended a system message would answer with a
non-empty rendering. -/
theorem not_every_mode_prepends : ¬ EveryModePrependsSystemPrompt := by
  intro h
  obtain ⟨p, hp⟩ := h "Write-up" call_writeup_model (List.Mem.head _)
  have h1 := hp revealSvc "k" [] "m" 1.0
  rw [chat_reveal] at h1
  exact echo_empty_ne_system p h1

/-- The per-mode optional system-prompt text attached by the routing
table: `none` for the "Write-up" mode, the mode's fixed text for the other
four labels. -/
def modeSystemText (fc : String) : Option String :=
  if fc = "Write-up" then none
  else if fc = "Self-assessment" then some selfAssessmentText
  else if fc = "Jigsaw/cooperation" then some jigsawText
  else if fc = "AI Feedback on feedback" then some feedbackOnFeedbackText
  else if fc = "Further Clarification on peer feedback" then some clarificationText
  else none

/-- C1 amended: every entry of the routing table calls the shared helper
with the input list prefixed by its mode's optional system prompt — the
fixed text as a system-role message for the four prompted modes, and no
prepended message for "Write-up". -/
theorem routes_prepend_mode_system_text (fc : String) (fn : RouteFn)
    (h : (fc, fn) ∈ FUNCTION_ROUTES) (svc : Svc) (key : String)
    (M : List Message) (m : String) (t : Float) :
    fn svc key M m t =
      _chat svc key ((modeSystemText fc).elim M (fun p => ⟨"system", p⟩ :: M)) m t := by
  simp only [FUNCTION_ROUTES, List.mem_cons, List.not_mem_nil, or_false,
    Prod.mk.injEq] at h
  rcases h with ⟨h1, h2⟩ | ⟨h1, h2⟩ | ⟨h1, h2⟩ | ⟨h1, h2⟩ | ⟨h1, h2⟩ <;>
    subst h1 <;> subst h2 <;> rfl

/-- Witness for the amended C1, at the "Self-assessment" entry with the
always-succeeding service. -/
theorem routes_prepend_mode_system_text_witness :
    (("Self-assessment", (call_self_assessment_model : RouteFn)) ∈ FUNCTION_ROUTES) ∧
    call_self_assessment_model okSvc "k" [] "gpt-4.1" 0.7 =
      _chat okSvc "k" ((modeSystemText "Self-assessment").elim []
        (fun p => ⟨"system", p⟩ :: [])) "gpt-4.1" 0.7 :=
  ⟨List.mem_cons_of_mem _ (List.Mem.head _),
   routes_prepend_mode_system_text "Self-assessment" call_self_assessment_model
     (List.mem_cons_of_mem _ (List.Mem.head _)) okSvc "k" [] "gpt-4.1" 0.7⟩

/-!
## C5 — five labels, but not all of them select a system prompt
-/

/-- Formalisation of claim C5 exactly as stated: the routing table has
exactly five entries and every one of its labels selects a system-prompt
string that its route prepends. -/
def FiveModesEachSelectSystemPrompt : Prop :=
  FUNCTION_ROUTES.length = 5 ∧
  ∀ fc fn, (fc, fn) ∈ FUNCTION_ROUTES → ∃ p : String,
    ∀ (svc : Svc) (key : String) (M : List Message) (m : String) (t : Float),
      fn svc key M m t = _chat svc key (⟨"system", p⟩ :: M) m t

/-- Counterexample to C5 as stated: there are five labels, but the
"Write-up" one selects no system prompt. Probed with the echo service on
the empty input list, its route echoes the empty rendering, which no
system-prompt-prepending route can produce. -/
theorem not_five_modes_each_select : ¬ FiveModesEachSelectSystemPrompt := by
  intro h
  obtain ⟨p, hp⟩ := h.2 "Write-up" call_writeup_model (List.Mem.head _)
  have h1 := hp revealSvc "k" [] "m" 1.0
  rw [chat_reveal] at h1
  exact echo_empty_ne_system p h1

/-- C5 amended: the routing table has exactly the five distinct labels of
the source dict, of which the four non-"Write-up" labels select a
non-empty system-prompt text and "Write-up" selects none. -/
theorem five_labels_four_prompts :
    FUNCTION_ROUTES.map Prod.fst =
      ["Write-up", "Self-assessment", "Jigsaw/cooperation",
       "AI Feedback on feedback", "Further Clarification on peer feedback"] ∧
    (FUNCTION_ROUTES.map Prod.fst).Nodup ∧
    (FUNCTION_ROUTES.map Prod.fst).length = 5 ∧
    modeSystemText "Write-up" = none ∧
    (modeSystemText "Self-assessment" = some selfAssessmentText ∧
      0 < selfAssessmentText.length) ∧
    (modeSystemText "Jigsaw/cooperation" = some jigsawText ∧
      0 < jigsawText.length) ∧
    (modeSystemText "AI Feedback on feedback" = some feedbackOnFeedbackText ∧
      0 < feedbackOnFeedbackText.length) ∧
    (modeSystemText "Further Clarification on peer feedback" = some clarificationText ∧
      0 < clarificationText.length) :=
  ⟨rfl, by decide, rfl, by decide,
   ⟨by decide, by decide⟩, ⟨by decide, by decide⟩,
   ⟨by decide, by decide⟩, ⟨by decide, by decide⟩⟩

/-!
## Concrete states used by the witnesses and counterexamples
-/

/-- A concrete chat-page state: Write-up mode, default model and
temperature, key `"k"`, empty log. -/
def chatState : SessionState :=
  ⟨"chat", [], some "Write-up", 0.7, "gpt-4.1", "k"⟩

/-- The state `chatState` reaches when `"hi"` is sent against the
always-succeeding service. -/
def chatStateAfter : SessionState :=
  ⟨"chat", [⟨"user", "hi"⟩, ⟨"assistant", "ok"⟩], some "Write-up", 0.7, "gpt-4.1", "k"⟩

/-!
## C6 — the send handler appends the user turn, dispatches, appends the reply
-/

/-- C6: on the chat screen, a non-empty (truthy) user input makes the send
handler append the user turn to the log, dispatch the whole updated log to
the route function the current mode selects in `FUNCTION_ROUTES`, and
append that function's reply as an assistant turn — in that order, which
the resulting log records: user turn first, then the reply of the route
applied to the log as it stood after the user turn was appended. -/
theorem send_appends_dispatches_appends (svc : Svc) (s : SessionState)
    (u : String) (fc : String) (fn : RouteFn)
    (hu : pyBool u = true)
    (hfc : s.function_choice = some fc)
    (hfn : FUNCTION_ROUTES.lookup fc = some fn) :
    chat_send svc s u = some { s with messages :=
      (s.messages ++ [⟨"user", u⟩]) ++
      [⟨"assistant", fn svc s.openai_api_key (s.messages ++ [⟨"user", u⟩])
        s.model_choice s.temperature⟩] } := by
  simp [chat_send, hu, hfc, hfn]

/-- Witness for C6 at `chatState` with input `"hi"`. -/
theorem send_appends_dispatches_appends_witness :
    pyBool "hi" = true ∧
    chatState.function_choice = some "Write-up" ∧
    FUNCTION_ROUTES.lookup "Write-up" = some call_writeup_model ∧
    chat_send okSvc chatState "hi" = some { chatState with messages :=
      (chatState.messages ++ [⟨"user", "hi"⟩]) ++
      [⟨"assistant", call_writeup_model okSvc chatState.openai_api_key
        (chatState.messages ++ [⟨"user", "hi"⟩])
        chatState.model_choice chatState.temperature⟩] } :=
  ⟨by decide, rfl, rfl,
   send_appends_dispatches_appends okSvc chatState "hi" "Write-up"
     call_writeup_model (by decide) rfl rfl⟩

/-!
## C10 — the stored log gains exactly one user and one assistant turn,
never a system turn
-/

/-- C10: the routing functions leave the stored log unmodified — the
prompted modes build a fresh list `[system] + messages` instead of
mutating, which in this pure embedding surfaces as the stored log being
determined by the handler alone: after a successful send the log is the
old log plus exactly one user turn and one assistant turn (so it grows by
exactly two), and no system-role turn is ever stored — starting from the
initial empty log, a log free of system turns stays free of them. -/
theorem send_grows_by_two_no_system_turn (svc : Svc) (s s' : SessionState)
    (u : String) (hu : pyBool u = true) (h : chat_send svc s u = some s') :
    (∃ reply, s'.messages = s.messages ++ [⟨"user", u⟩, ⟨"assistant", reply⟩]) ∧
    s'.messages.length = s.messages.length + 2 ∧
    ((∀ m ∈ s.messages, m.role ≠ "system") →
      ∀ m ∈ s'.messages, m.role ≠ "system") ∧
    initState.messages = [] := by
  unfold chat_send at h
  rw [hu] at h
  simp only [if_true] at h
  rcases hlk : s.function_choice.bind (fun fc => FUNCTION_ROUTES.lookup fc) with _ | fn
  · rw [hlk] at h
    cases h
  · rw [hlk] at h
    injection h with h
    subst h
    refine ⟨⟨fn svc s.openai_api_key (s.messages ++ [⟨"user", u⟩])
      s.model_choice s.temperature, by simp⟩, by simp, ?_, rfl⟩
    intro hall m hm
    simp only [List.mem_append, List.mem_cons, List.not_mem_nil, or_false] at hm
    rcases hm with (hm | hm) | hm
    · exact hall m hm
    · subst hm; simp
    · subst hm; simp

/-- Witness for C10: sending `"hi"` from `chatState` grows the log from
zero to two turns. -/
theorem send_grows_by_two_no_system_turn_witness :
    chatStateAfter.messages.length = chatState.messages.length + 2 :=
  (send_grows_by_two_no_system_turn okSvc chatState chatStateAfter "hi"
    (by decide) rfl).2.1

/-!
## C9 — Reset clears the log and nothing else
-/

/-- C9: on the chat screen, the Reset-conversation button replaces the
conversation log with the empty list and leaves the page, mode choice,
model choice, temperature and API key exactly as they were. -/
theorem reset_clears_only_messages (svc : Svc) (s : SessionState)
    (hpage : s.page = "chat") :
    step svc s .reset = some { s with messages := [] } ∧
    ({ s with messages := ([] : List Message) } : SessionState).page = s.page ∧
    ({ s with messages := ([] : List Message) } : SessionState).function_choice
      = s.function_choice ∧
    ({ s with messages := ([] : List Message) } : SessionState).model_choice
      = s.model_choice ∧
    ({ s with messages := ([] : List Message) } : SessionState).temperature
      = s.temperature ∧
    ({ s with messages := ([] : List Message) } : SessionState).openai_api_key
      = s.openai_api_key :=
  ⟨by simp [step, hpage], rfl, rfl, rfl, rfl, rfl⟩

/-- Witness for C9 at `chatState`. -/
theorem reset_clears_only_messages_witness :
    step okSvc chatState .reset = some { chatState with messages := [] } ∧
    ({ chatState with messages := ([] : List Message) } : SessionState).page
      = chatState.page ∧
    ({ chatState with messages := ([] : List Message) } : SessionState).function_choice
      = chatState.function_choice ∧
    ({ chatState with messages := ([] : List Message) } : SessionState).model_choice
      = chatState.model_choice ∧
    ({ chatState with messages := ([] : List Message) } : SessionState).temperature
      = chatState.temperature ∧
    ({ chatState with messages := ([] : List Message) } : SessionState).openai_api_key
      = chatState.openai_api_key :=
  reset_clears_only_messages okSvc chatState rfl

/-!
## C7 — the two-page state machine
-/

/-- A successful send never touches any session-state field except the
conversation log: shared frame helper for the state-machine theorem. -/
theorem chat_send_frame (svc : Svc) (s s' : SessionState) (u : String)
    (h : chat_send svc s u = some s') :
    s'.page = s.page ∧ s'.function_choice = s.function_choice ∧
    s'.model_choice = s.model_choice ∧ s'.temperature = s.temperature ∧
    s'.openai_api_key = s.openai_api_key := by
  unfold chat_send at h
  split at h
  · rcases hlk : s.function_choice.bind (fun fc => FUNCTION_ROUTES.lookup fc)
      with _ | fn
    · rw [hlk] at h
      cases h
    · rw [hlk] at h
      injection h with h
      subst h
      exact ⟨rfl, rfl, rfl, rfl, rfl⟩
  · injection h with h
    subst h
    exact ⟨rfl, rfl, rfl, rfl, rfl⟩

/-- C7: the page field starts as `"selector"`; every step keeps it inside
the two-value set `{"selector", "chat"}`; the only event that moves a
state from the selector page to the chat page is a Start click, and that
click stores the clicked mode, model and temperature into the session
state; and the only event that moves a state from the chat page back to
the selector page is a Back click. -/
theorem page_state_machine :
    initState.page = "selector" ∧
    ∀ (svc : Svc) (s : SessionState) (e : UiEvent) (s' : SessionState),
      step svc s e = some s' →
      ((s.page = "selector" ∨ s.page = "chat") →
        (s'.page = "selector" ∨ s'.page = "chat")) ∧
      (s.page = "selector" → s'.page = "chat" →
        ∃ fc mc t, e = .start fc mc t ∧ s'.function_choice = some fc ∧
          s'.model_choice = mc ∧ s'.temperature = t) ∧
      (s.page = "chat" → s'.page = "selector" → e = .back) := by
  refine ⟨rfl, ?_⟩
  intro svc s e s' h
  cases e with
  | setKey k =>
      simp only [step] at h
      split at h <;> (injection h with h; subst h) <;>
        exact ⟨fun hp => hp,
          fun h1 h2 => absurd (h1.symm.trans h2) (by decide),
          fun h1 h2 => absurd (h1.symm.trans h2) (by decide)⟩
  | start fc mc t =>
      simp only [step] at h
      split at h
      next hg =>
        injection h with h
        subst h
        obtain ⟨hsel, -, -, -⟩ := hg
        exact ⟨fun _ => Or.inr rfl,
          fun _ _ => ⟨fc, mc, t, rfl, rfl, rfl, rfl⟩,
          fun h1 _ => absurd (hsel.symm.trans h1) (by decide)⟩
      next =>
        injection h with h
        subst h
        exact ⟨fun hp => hp,
          fun h1 h2 => absurd (h1.symm.trans h2) (by decide),
          fun h1 h2 => absurd (h1.symm.trans h2) (by decide)⟩
  | reset =>
      simp only [step] at h
      split at h <;> (injection h with h; subst h) <;>
        exact ⟨fun hp => hp,
          fun h1 h2 => absurd (h1.symm.trans h2) (by decide),
          fun h1 h2 => absurd (h1.symm.trans h2) (by decide)⟩
  | send u =>
      simp only [step] at h
      split at h
      next hchat =>
        have hf := (chat_send_frame svc s s' u h).1
        refine ⟨fun _ => Or.inr (hf.trans hchat), ?_, ?_⟩
        · intro h1 _
          exact absurd (h1.symm.trans hchat) (by decide)
        · intro h1 h2
          exact absurd ((h1.symm.trans (hf.symm.trans h2)).symm) (by decide)
      next hnotchat =>
        injection h with h
        subst h
        exact ⟨fun hp => hp,
          fun h1 h2 => absurd (h1.symm.trans h2) (by decide),
          fun h1 _ => absurd h1 hnotchat⟩
  | back =>
      simp only [step] at h
      split at h
      next hchat =>
        injection h with h
        subst h
        exact ⟨fun _ => Or.inl rfl,
          fun h1 _ => absurd (h1.symm.trans hchat) (by decide),
          fun _ _ => rfl⟩
      next hnotchat =>
        injection h with h
        subst h
        exact ⟨fun hp => hp,
          fun h1 h2 => absurd (h1.symm.trans h2) (by decide),
          fun h1 _ => absurd h1 hnotchat⟩

/-- Witness for C7: a Back click from `chatState` lands on a page that is
again one of the two legal values. -/
theorem page_state_machine_witness :
    ({ chatState with page := "selector" } : SessionState).page = "selector" ∨
    ({ chatState with page := "selector" } : SessionState).page = "chat" :=
  (page_state_machine.2 okSvc chatState .back
    { chatState with page := "selector" } rfl).1 (Or.inr rfl)

/-!
## C4 — what the send handler relays: only the new turn, or the whole log?
-/

/-- Formalisation of claim C4 exactly as stated: whenever a truthy user
turn is sent from the chat screen, the reply appended to the log is the
one the mode's route function produces from the new turn alone (the
route adds only its fixed system-prompt before it), independent of the
prior conversation history. -/
def RelaysOnlyNewTurn : Prop :=
  ∀ (svc : Svc) (s : SessionState) (u : String) (s' : SessionState)
    (fc : String) (fn : RouteFn),
    pyBool u = true → s.function_choice = some fc →
    FUNCTION_ROUTES.lookup fc = some fn →
    chat_send svc s u = some s' →
    s'.messages.getLast? =
      some ⟨"assistant",
        fn svc s.openai_api_key [⟨"user", u⟩] s.model_choice s.temperature⟩

/-- A chat-page state whose log already holds one earlier user turn. -/
def chatStatePrior : SessionState :=
  ⟨"chat", [⟨"user", "a"⟩], some "Write-up", 0.7, "gpt-4.1", "k"⟩

/-- The state `chatStatePrior` reaches when `"b"` is sent against the echo
service: the appended reply renders both the old turn and the new one,
i.e. the whole stored log was relayed. -/
def chatStatePriorAfter : SessionState :=
  ⟨"chat", [⟨"user", "a"⟩, ⟨"user", "b"⟩,
    ⟨"assistant", msgRender [⟨"user", "a"⟩, ⟨"user", "b"⟩]⟩],
   some "Write-up", 0.7, "gpt-4.1", "k"⟩

/-- Counterexample to C4 as stated: sending `"b"` from `chatStatePrior`
(whose log holds the earlier turn `"a"`) against the echo service stores
the reply `"user:a;user:b;"` — the rendering of the whole log — whereas a
system that relayed only the new turn would store `"user:b;"`. -/
theorem not_relays_only_new_turn : ¬ RelaysOnlyNewTurn := by
  intro h
  have hlast := h revealSvc chatStatePrior "b" chatStatePriorAfter "Write-up"
    call_writeup_model (by decide) rfl rfl rfl
  exact absurd hlast (by decide)

/-- C4 amended: each user turn sent from the chat screen makes the system
relay the full stored conversation log — the prior history plus the new
turn — (with the mode's fixed system prompt prepended by the route
function) to the external API, and store whatever text comes back as the
appended assistant reply. -/
theorem relays_full_log_with_new_turn (svc : Svc) (s : SessionState)
    (u : String) (s' : SessionState) (fc : String) (fn : RouteFn)
    (hu : pyBool u = true) (hfc : s.function_choice = some fc)
    (hfn : FUNCTION_ROUTES.lookup fc = some fn)
    (h : chat_send svc s u = some s') :
    s'.messages.getLast? =
      some ⟨"assistant",
        fn svc s.openai_api_key (s.messages ++ [⟨"user", u⟩])
          s.model_choice s.temperature⟩ := by
  unfold chat_send at h
  rw [hu] at h
  simp only [if_true] at h
  have hlk : s.function_choice.bind (fun fc => FUNCTION_ROUTES.lookup fc)
      = some fn := by
    rw [hfc]
    exact hfn
  rw [hlk] at h
  injection h with h
  subst h
  simp

/-- Witness for the amended C4 at `chatState` with input `"hi"`. -/
theorem relays_full_log_with_new_turn_witness :
    chatStateAfter.messages.getLast? =
      some ⟨"assistant",
        call_writeup_model okSvc chatState.openai_api_key
          (chatState.messages ++ [⟨"user", "hi"⟩])
          chatState.model_choice chatState.temperature⟩ :=
  relays_full_log_with_new_turn okSvc chatState "hi" chatStateAfter "Write-up"
    call_writeup_model (by decide) rfl rfl rfl
